import Mathlib

/-!
# Overstayr: verified model of the visa-tracking core

A shallow embedding of the date-arithmetic, status-classification and
reminder-scheduling logic of the Overstayr app, together with theorems
settling the specified properties.

Modelling conventions:
* JavaScript `Date` values are integers: milliseconds since the Unix epoch.
* Calendar dates (`YYYY-MM-DD` strings) are modelled by their numeric
  components (`Ymd`); the epoch-day value of such a date is computed by
  `daysFromCivil`, the standard civil-calendar conversion that ECMAScript's
  `MakeDay` implements.
* The device timezone is modelled as a fixed UTC offset in minutes
  (`tzMin`, positive east of UTC); a `Date`'s local clock reading is its
  timestamp shifted by that offset.
* JavaScript strings are lists of characters (`Str`); `trim`/`toUpperCase`
  are modelled at ASCII granularity, which matches JS on the inputs at play.
* Numeric text inputs and stored numbers are modelled at the granularity a
  claim needs: `Option ℚ` where `Number(...)` may be non-finite or
  fractional (`none` = NaN/±Infinity), `Option Int` where the value is an
  integer under the app's own input constraints.
-/

namespace Overstayr

/-- Characters of a JavaScript string. -/
abbrev Str := List Char

/-! ## Time constants -/

def msPerMinute : Int := 60000

def msPerHour : Int := 3600000

def msPerDay : Int := 86400000

/-! ## Calendar dates -/

/-- The numeric components of a `YYYY-MM-DD` date string. -/
structure Ymd where
  y : Int
  m : Int
  d : Int
deriving DecidableEq, Repr

/-- Epoch-day number of a civil date: the number of days from 1970-01-01 to
`date` in the proleptic Gregorian calendar.  This is the civil-from-date
conversion that ECMAScript's `MakeDay` performs when
`new Date(s + "T00:00:00Z")` parses a date-only string. -/
def daysFromCivil (date : Ymd) : Int :=
  let y := if date.m ≤ 2 then date.y - 1 else date.y
  let era := y.fdiv 400
  let yoe := y - era * 400
  let mp := if date.m ≤ 2 then date.m + 9 else date.m - 3
  let doy := (153 * mp + 2).fdiv 5 + date.d - 1
  let doe := yoe * 365 + yoe.fdiv 4 - yoe.fdiv 100 + doy
  era * 146097 + doe - 719468

/-- Timestamp of `new Date(s + "T00:00:00Z")` for the date string with
components `s`: midnight UTC of that calendar day. -/
def parseUTCInstant (s : Ymd) : Int :=
  daysFromCivil s * msPerDay

/-- `addDays(dateStr, days)` (and its twin `addDaysUTC` on the add screen):
parse the date string as midnight UTC, then `setUTCDate(getUTCDate() + days)`.
Shifting the UTC day-of-month component by `days` with calendar
normalisation adds exactly `days * msPerDay` to the timestamp. -/
def addDays (s : Ymd) (days : Int) : Int :=
  parseUTCInstant s + days * msPerDay

/-- `Date.UTC(t.getUTCFullYear(), t.getUTCMonth(), t.getUTCDate())`:
midnight UTC of the UTC calendar day containing `t`, i.e. the timestamp
floored to a whole number of days. -/
def utcMidnight (t : Int) : Int :=
  msPerDay * (t.fdiv msPerDay)

/-- `daysBetweenUTC(a, b)`: `Math.floor((b0 - a0) / msPerDay)` where `a0`,
`b0` are the UTC midnights of `a` and `b`.  `Math.floor` of the real
quotient of integers is flooring division. -/
def daysBetweenUTC (a b : Int) : Int :=
  (utcMidnight b - utcMidnight a).fdiv msPerDay

/-- `isLeapYear` in the proleptic Gregorian calendar. -/
def isLeapYear (y : Int) : Bool :=
  (y % 4 == 0 && y % 100 != 0) || y % 400 == 0

/-- Length of month `m` of year `y`. -/
def daysInMonth (y m : Int) : Int :=
  if m = 2 then (if isLeapYear y then 29 else 28)
  else if m = 4 ∨ m = 6 ∨ m = 9 ∨ m = 11 then 30
  else 31

/-- `isValidDateYYYYMMDD(s)` after its `^\d{4}-\d{2}-\d{2}$` shape test:
build `new Date(y, m-1, d)` and require the components to round-trip.  The
constructor normalises out-of-range components, so the round-trip holds
exactly when the month and day are within calendar range; years `0..99` are
additionally rejected because the constructor maps them to `1900 + y`. -/
def isValidDateYMD (x : Ymd) : Bool :=
  decide (100 ≤ x.y) && decide (1 ≤ x.m) && decide (x.m ≤ 12) &&
    decide (1 ≤ x.d) && decide (x.d ≤ daysInMonth x.y x.m)

/-! ## Status classification (Home screen) -/

/-- Urgency band of a record, as rendered by the Home screen. -/
inductive Band where
  | expired
  | urgent
  | warning
  | safe
deriving DecidableEq, Repr

/-- The `status` computed in `renderItem`:
`expired` if `daysRemaining < 0`, else `urgent` if `≤ 6`, else `warning`
if `≤ 14`, else `safe`. -/
def statusOf (daysRemaining : Int) : Band :=
  if daysRemaining < 0 then .expired
  else if daysRemaining ≤ 6 then .urgent
  else if daysRemaining ≤ 14 then .warning
  else .safe

/-- The `rank` function used by the Home screen sort. -/
def rank (daysRemaining : Int) : Int :=
  if daysRemaining < 0 then 0
  else if daysRemaining ≤ 6 then 1
  else if daysRemaining ≤ 14 then 2
  else 3

/-! ## Records -/

/-- A persisted visa record.  `id` is modelled by the numeric timestamp in
`visa_${Date.now()}`; `entryDate` is the `YYYY-MM-DD` string by its
components; `notificationIds` is the (possibly empty) list of scheduler
handles — a record whose optional field is absent behaves exactly like one
holding the empty list, so both are modelled by `[]`. -/
structure Visa where
  id : Int
  countryCode : Str
  visaLabel : Str
  entryDate : Ymd
  durationDays : Int
  createdAt : Int
  notificationIds : List Str
deriving DecidableEq, Repr

/-- `computeCountdown(v).daysRemaining` at clock value `now`. -/
def computeDaysRemaining (now : Int) (v : Visa) : Int :=
  daysBetweenUTC now (addDays v.entryDate v.durationDays)

/-- A record together with its countdown, as listed by the Home screen. -/
structure VisaCardItem where
  visa : Visa
  daysRemaining : Int
deriving DecidableEq, Repr

/-- The `visas.map(...)` step of the Home screen's `data` memo. -/
def withCountdown (now : Int) (vs : List Visa) : List VisaCardItem :=
  vs.map fun v => ⟨v, computeDaysRemaining now v⟩

/-- The JS sort comparator: `rank` difference first, `daysRemaining`
difference on rank ties. -/
def visaCompare (a b : VisaCardItem) : Int :=
  if rank a.daysRemaining ≠ rank b.daysRemaining then
    rank a.daysRemaining - rank b.daysRemaining
  else
    a.daysRemaining - b.daysRemaining

/-- "`a` need not come after `b`" for the comparator above. -/
def visaLE (a b : VisaCardItem) : Bool :=
  decide (visaCompare a b ≤ 0)

/-- The sorted `data` list of the Home screen.  `Array.prototype.sort` is
required to be stable (ES2019) and the comparator is consistent, so its
output is the unique stable sort, i.e. a stable merge sort. -/
def sortedData (now : Int) (vs : List Visa) : List VisaCardItem :=
  (withCountdown now vs).mergeSort visaLE

/-! ## Reminder settings (services/settings) -/

/-- A JavaScript number: `none` models the non-finite values
(NaN, ±Infinity), `some q` a finite value. -/
abbrev JsNum := Option ℚ

/-- `clampInt(n, min, max, fallback)`: non-finite input falls back;
otherwise the floor of the input is clamped into `[min, max]`. -/
def clampInt (n : JsNum) (min max fallback : Int) : Int :=
  match n with
  | none => fallback
  | some q =>
    let x := q.floor
    if x < min then min
    else if x > max then max
    else x

/-- The raw key-value state `getReminderSettings` reads.
`enabledStr` is the stored string at `notif_enabled` (`none` = key absent).
`hourNum`/`minuteNum` are `Number(...)` of the stored strings
(outer `none` = key absent, inner `none` = non-finite parse).
`offsetsParsed` is the `JSON.parse` result of the offsets entry when it is
an array (`none` = key absent/empty/unparsable/not an array); array
elements are numeric values at integer granularity, `none` marking entries
that fail `Number.isFinite`. -/
structure StoredSettings where
  enabledStr : Option Str
  hourNum : Option JsNum
  minuteNum : Option JsNum
  offsetsParsed : Option (List (Option Int))
deriving DecidableEq, Repr

/-- The in-memory reminder configuration. -/
structure ReminderSettings where
  enabled : Bool
  hour : Int
  minute : Int
  offsetsDays : List Int
deriving DecidableEq, Repr

/-- `getReminderSettings()` over the stored state: `enabled` defaults to
true and otherwise tests the string against `"1"`; hour and minute go
through `clampInt` with defaults 9 and 0; the offsets entry is kept only
when every element is finite, each element then filtered into `[0, 365]`,
with `[14, 7, 3, 0]` as the fallback. -/
def getReminderSettings (s : StoredSettings) : ReminderSettings :=
  let enabled := match s.enabledStr with
    | none => true
    | some v => v = ['1']
  let hour := match s.hourNum with
    | none => 9
    | some n => clampInt n 0 23 9
  let minute := match s.minuteNum with
    | none => 0
    | some n => clampInt n 0 59 0
  let offsetsDays := match s.offsetsParsed with
    | none => [14, 7, 3, 0]
    | some xs =>
      if xs.all Option.isSome then
        (xs.filterMap id).filter fun x => decide (0 ≤ x) && decide (x ≤ 365)
      else [14, 7, 3, 0]
  ⟨enabled, hour, minute, offsetsDays⟩

/-! ## Local wall-clock conversion (add screen helpers) -/

/-- The local calendar day (as an epoch-day number) containing instant `t`
on a device whose timezone sits `tzMin` minutes east of UTC. -/
def localEpochDay (tzMin t : Int) : Int :=
  (t + tzMin * msPerMinute).fdiv msPerDay

/-- The local wall-clock time of instant `t`, as milliseconds past local
midnight. -/
def localMsOfDay (tzMin t : Int) : Int :=
  (t + tzMin * msPerMinute) - msPerDay * localEpochDay tzMin t

/-- `atLocalTime(dateUTC, hour, minute)`:
`new Date(dateUTC)` followed by `setHours(hour, minute, 0, 0)`, which keeps
the **local** calendar day of the instant and resets its local wall-clock
time to `hour:minute:00.000`. -/
def atLocalTime (tzMin : Int) (dateUTC : Int) (hour minute : Int) : Int :=
  msPerDay * ((dateUTC + tzMin * msPerMinute).fdiv msPerDay)
    + hour * msPerHour + minute * msPerMinute - tzMin * msPerMinute

/-! ## Notification collaborator (services/notifications)

The OS notification subsystem is external.  Following its documented
contract, `schedule` answers each request with a handle or a refusal
(modelled as an outcome function indexed by the request count) and `cancel`
reports success or failure as a value and never errors. -/

/-- The body text of a reminder, by its two template phrasings:
`"Your ${cc} visa expires today."` and
`"Your ${cc} visa expires in ${d} day(s)."`. -/
inductive ReminderBody where
  | expiresToday (cc : Str)
  | expiresInDays (cc : Str) (d : Int)
deriving DecidableEq, Repr

/-- One `scheduleNotificationAsync` request actually issued to the OS. -/
structure ScheduleCall where
  title : Str
  body : ReminderBody
  date : Int
deriving DecidableEq, Repr

/-- `scheduleVisaReminder(params)` given the OS's answer `osResult` to the
request it would issue: returns the id (or `null`) together with whether
the OS call was issued.  On web, or when `params.date <= now`, no request
is issued and `null` is returned. -/
def scheduleVisaReminder (isWeb : Bool) (now : Int) (osResult : Option Str)
    (date : Int) : Option Str × Bool :=
  if isWeb then (none, false)
  else if date ≤ now then (none, false)
  else (osResult, true)

/-- `cancelScheduled(ids)`: one cancellation request per id (none on web),
each paired with the success/failure the collaborator reports for it.  The
results are not inspected by any caller. -/
def cancelScheduled (isWeb : Bool) (cancelOk : Str → Bool) (ids : List Str) :
    List (Str × Bool) :=
  if isWeb then [] else ids.map fun i => (i, cancelOk i)

/-! ## Persistence (services/storage) -/

/-- `saveVisa(v)`: append the record to the stored list. -/
def saveVisa (store : List Visa) (v : Visa) : List Visa :=
  store ++ [v]

/-- `deleteVisa(id)`: keep every record whose id differs. -/
def deleteVisa (store : List Visa) (id : Int) : List Visa :=
  store.filter fun v => v.id ≠ id

/-! ## The add-screen save flow (`onSave`) -/

/-- Which validation alert `onSave` raised, if any. -/
inductive AlertKind where
  | invalidCountryCode
  | missingLabel
  | invalidDate
  | invalidDuration
deriving DecidableEq, Repr

/-- Everything observable about one run of `onSave`: the alert shown (if
any), the schedule requests issued to the OS, and the record handed to
`saveVisa` (if reached). -/
structure SaveOutcome where
  alert : Option AlertKind
  osCalls : List ScheduleCall
  saved : Option Visa
deriving DecidableEq, Repr

/-- JS `String.prototype.trim`, at ASCII granularity. -/
def jsTrim (s : Str) : Str :=
  ((s.dropWhile Char.isWhitespace).reverse.dropWhile Char.isWhitespace).reverse

/-- JS `String.prototype.toUpperCase`, at ASCII granularity. -/
def jsToUpper (s : Str) : Str :=
  s.map Char.toUpper

/-- The title string `"Visa reminder"`. -/
def visaReminderTitle : Str :=
  ['V', 'i', 's', 'a', ' ', 'r', 'e', 'm', 'i', 'n', 'd', 'e', 'r']

/-- The scheduling loop of `onSave`: for each offset `d`, shift the expiry
instant back `d` days (`setUTCDate(getUTCDate() - d)`), attach the local
wall-clock time, and call `scheduleVisaReminder`; a returned id is kept
only when truthy (non-null and non-empty).  `k` counts the OS requests
already issued, indexing the collaborator's outcomes `os`. -/
def scheduleLoop (isWeb : Bool) (now : Int) (os : Nat → Option Str)
    (hour minute tzMin : Int) (cc : Str) (expiryUTC : Int) :
    List Int → Nat → List Str × List ScheduleCall
  | [], _ => ([], [])
  | d :: rest, k =>
    let fireUTC := expiryUTC - d * msPerDay
    let fireLocal := atLocalTime tzMin fireUTC hour minute
    let body := if d = 0 then ReminderBody.expiresToday cc
                else ReminderBody.expiresInDays cc d
    if isWeb then
      scheduleLoop isWeb now os hour minute tzMin cc expiryUTC rest k
    else if fireLocal ≤ now then
      scheduleLoop isWeb now os hour minute tzMin cc expiryUTC rest k
    else
      let id := os k
      let next := scheduleLoop isWeb now os hour minute tzMin cc expiryUTC rest (k + 1)
      (match id with
        | some h => if h = [] then next.1 else h :: next.1
        | none => next.1,
       ⟨visaReminderTitle, body, fireLocal⟩ :: next.2)

/-- `onSave` on the add screen.  Inputs are the four form fields
(`entryDateInput` is `none` when the text fails the `YYYY-MM-DD` shape
test, `durationNum` is `Number(...)` of the duration text at integer
granularity); the environment supplies the platform, the permission the OS
collaborator grants, the loaded reminder settings, the device timezone, the
clock, and the collaborator's answer to each schedule request. -/
def onSave (isWeb permission : Bool) (settings : ReminderSettings)
    (tzMin now : Int) (os : Nat → Option Str)
    (countryCodeInput visaLabelInput : Str) (entryDateInput : Option Ymd)
    (durationNum : Option Int) : SaveOutcome :=
  let cc := jsToUpper (jsTrim countryCodeInput)
  let label := jsTrim visaLabelInput
  if cc.length ≠ 2 then ⟨some .invalidCountryCode, [], none⟩
  else if label = [] then ⟨some .missingLabel, [], none⟩
  else
    match entryDateInput with
    | none => ⟨some .invalidDate, [], none⟩
    | some entry =>
      if ¬ isValidDateYMD entry then ⟨some .invalidDate, [], none⟩
      else
        match durationNum with
        | none => ⟨some .invalidDuration, [], none⟩
        | some days =>
          if days < 1 ∨ days > 365 then ⟨some .invalidDuration, [], none⟩
          else
            let visa : Visa :=
              ⟨now, cc, label, entry, days, now, []⟩
            if isWeb then ⟨none, [], some visa⟩
            else if ¬ permission then ⟨none, [], some visa⟩
            else
              let expiryUTC := addDays entry days
              let r := scheduleLoop isWeb now os settings.hour settings.minute
                tzMin cc expiryUTC settings.offsetsDays 0
              ⟨none, r.2, some { visa with notificationIds := r.1 }⟩

/-! ## The delete flow (`onDelete` on the Home screen) -/

/-- Everything observable about one run of the delete confirmation: the
cancellation requests issued (with the collaborator's reported outcome for
each) and the stored list after `deleteVisa`. -/
structure DeleteOutcome where
  cancelCalls : List (Str × Bool)
  store : List Visa
deriving DecidableEq, Repr

/-- The confirmed delete action: cancel the record's reminders when it has
any (`item.notificationIds?.length` is truthy exactly when the list is
non-empty), then remove the record.  The cancellation outcomes are awaited
but never inspected, so removal happens for every combination of reported
results. -/
def onDelete (isWeb : Bool) (cancelOk : Str → Bool) (store : List Visa)
    (item : Visa) : DeleteOutcome :=
  let calls := if item.notificationIds ≠ [] then
      cancelScheduled isWeb cancelOk item.notificationIds
    else []
  ⟨calls, deleteVisa store item.id⟩

/-! ## Arithmetic helpers -/

theorem fdiv_msPerDay_mul_add (q r : Int) (h0 : 0 ≤ r) (h1 : r < msPerDay) :
    (msPerDay * q + r).fdiv msPerDay = q := by
  rw [Int.fdiv_eq_ediv _ (by decide : (0 : Int) ≤ msPerDay), Int.add_comm,
    Int.add_mul_ediv_left r q (by decide : msPerDay ≠ 0),
    Int.ediv_eq_zero_of_lt h0 h1, Int.zero_add]

theorem fdiv_msPerDay_small_neg (z : Int) (h0 : -msPerDay ≤ z) (h1 : z < 0) :
    z.fdiv msPerDay = -1 := by
  have hz : z = msPerDay * (-1) + (z + msPerDay) := by ring
  rw [hz, fdiv_msPerDay_mul_add (-1) (z + msPerDay) (by omega)
    (by unfold msPerDay at *; omega)]

theorem fdiv_msPerDay_small_nonneg (z : Int) (h0 : 0 ≤ z) (h1 : z < msPerDay) :
    z.fdiv msPerDay = 0 := by
  have hz : z = msPerDay * 0 + z := by ring
  rw [hz, fdiv_msPerDay_mul_add 0 z h0 h1]

theorem utcMidnight_of_midnight (e : Int) :
    utcMidnight (e * msPerDay) = msPerDay * e := by
  unfold utcMidnight
  rw [Int.mul_fdiv_cancel e (by decide : msPerDay ≠ 0)]

/-! ## Claim theorems -/

/-- C8: for every calendar date `entryDate` and every integer
`durationDays`, `daysBetween(entryDate, addCalendarDays(entryDate,
durationDays))` equals `durationDays`, both operations computed over UTC
calendar midnights. -/
theorem daysBetween_addDays_roundtrip (entryDate : Ymd) (durationDays : Int) :
    daysBetweenUTC (parseUTCInstant entryDate) (addDays entryDate durationDays)
      = durationDays := by
  unfold daysBetweenUTC addDays parseUTCInstant
  have h1 : daysFromCivil entryDate * msPerDay + durationDays * msPerDay
      = (daysFromCivil entryDate + durationDays) * msPerDay := by ring
  rw [h1, utcMidnight_of_midnight, utcMidnight_of_midnight]
  have h2 : msPerDay * (daysFromCivil entryDate + durationDays)
      - msPerDay * daysFromCivil entryDate = durationDays * msPerDay := by ring
  rw [h2, Int.mul_fdiv_cancel durationDays (by decide : msPerDay ≠ 0)]

/-- C7: the status classification follows the inclusive band thresholds
for every signed `daysRemaining`: negative values are `expired`, `0..6` is
`urgent`, `7..14` is `warning`, above `14` is `safe`; in particular
`-1 ↦ expired`, `0, 6 ↦ urgent`, `7, 14 ↦ warning`, `15 ↦ safe`. -/
theorem status_band_thresholds (d : Int) :
    (statusOf d = .expired ↔ d < 0) ∧
    (statusOf d = .urgent ↔ 0 ≤ d ∧ d ≤ 6) ∧
    (statusOf d = .warning ↔ 7 ≤ d ∧ d ≤ 14) ∧
    (statusOf d = .safe ↔ 14 < d) ∧
    statusOf (-1) = .expired ∧ statusOf 0 = .urgent ∧ statusOf 6 = .urgent ∧
    statusOf 7 = .warning ∧ statusOf 14 = .warning ∧ statusOf 15 = .safe := by
  refine ⟨?_, ?_, ?_, ?_, by decide, by decide, by decide, by decide, by decide,
    by decide⟩ <;>
  · unfold statusOf
    split_ifs <;> simp_all <;> omega

/-! ## Sort-order helpers -/

theorem visaLE_iff (a b : VisaCardItem) :
    visaLE a b = true ↔
      rank a.daysRemaining < rank b.daysRemaining ∨
        (rank a.daysRemaining = rank b.daysRemaining ∧
          a.daysRemaining ≤ b.daysRemaining) := by
  unfold visaLE visaCompare
  split_ifs with h <;> simp only [decide_eq_true_eq] <;> omega

theorem visaLE_trans (a b c : VisaCardItem) :
    visaLE a b = true → visaLE b c = true → visaLE a c = true := by
  rw [visaLE_iff, visaLE_iff, visaLE_iff]
  omega

theorem visaLE_total (a b : VisaCardItem) :
    (visaLE a b || visaLE b a) = true := by
  rw [Bool.or_eq_true, visaLE_iff, visaLE_iff]
  omega

/-- C9: the Home list order is the canonical ordering for every input
list: the output is a permutation of the input items, pairwise ordered by
band rank ascending with `daysRemaining` ascending inside equal ranks, and
two items with equal rank and equal `daysRemaining` keep their relative
input order (stability). -/
theorem home_sort_canonical (now : Int) (vs : List Visa) :
    (sortedData now vs).Perm (withCountdown now vs) ∧
    (sortedData now vs).Pairwise (fun a b =>
      rank a.daysRemaining < rank b.daysRemaining ∨
        (rank a.daysRemaining = rank b.daysRemaining ∧
          a.daysRemaining ≤ b.daysRemaining)) ∧
    (∀ a b : VisaCardItem,
      rank a.daysRemaining = rank b.daysRemaining →
      a.daysRemaining = b.daysRemaining →
      [a, b].Sublist (withCountdown now vs) →
      [a, b].Sublist (sortedData now vs)) := by
  refine ⟨List.mergeSort_perm _ _, ?_, ?_⟩
  · exact (List.sorted_mergeSort visaLE_trans visaLE_total _).imp
      fun h => (visaLE_iff _ _).mp h
  · intro a b h1 h2 hsub
    exact List.pair_sublist_mergeSort visaLE_trans visaLE_total
      ((visaLE_iff a b).mpr (Or.inr ⟨h1, le_of_eq h2⟩)) hsub

/-- Witness for C9: two records with identical entry date and duration
(hence equal rank and equal `daysRemaining`) stay in input order. -/
theorem home_sort_canonical_witness :
    [(⟨⟨1, ['V', 'N'], ['T'], ⟨2026, 1, 1⟩, 30, 0, []⟩,
        computeDaysRemaining 0 ⟨1, ['V', 'N'], ['T'], ⟨2026, 1, 1⟩, 30, 0, []⟩⟩ :
      VisaCardItem),
     ⟨⟨2, ['T', 'H'], ['T'], ⟨2026, 1, 1⟩, 30, 0, []⟩,
        computeDaysRemaining 0 ⟨2, ['T', 'H'], ['T'], ⟨2026, 1, 1⟩, 30, 0, []⟩⟩].Sublist
      (sortedData 0
        [⟨1, ['V', 'N'], ['T'], ⟨2026, 1, 1⟩, 30, 0, []⟩,
         ⟨2, ['T', 'H'], ['T'], ⟨2026, 1, 1⟩, 30, 0, []⟩]) :=
  (home_sort_canonical 0
      [⟨1, ['V', 'N'], ['T'], ⟨2026, 1, 1⟩, 30, 0, []⟩,
       ⟨2, ['T', 'H'], ['T'], ⟨2026, 1, 1⟩, 30, 0, []⟩]).2.2 _ _
    (by decide) (by decide) (List.Sublist.refl _)

/-! ## Local calendar day of a planned fire instant -/

theorem atLocalTime_day_time (tzMin E hr mi : Int)
    (htz1 : -1440 < tzMin) (htz2 : tzMin < 1440)
    (hh0 : 0 ≤ hr) (hh : hr < 24) (hm0 : 0 ≤ mi) (hm : mi < 60) :
    localEpochDay tzMin (atLocalTime tzMin (E * msPerDay) hr mi)
      = (if 0 ≤ tzMin then E else E - 1) ∧
    localMsOfDay tzMin (atLocalTime tzMin (E * msPerDay) hr mi)
      = hr * msPerHour + mi * msPerMinute := by
  have em : msPerMinute = 60000 := rfl
  have eh : msPerHour = 3600000 := rfl
  have ed : msPerDay = 86400000 := rfl
  have hr0 : 0 ≤ hr * msPerHour + mi * msPerMinute := by rw [em, eh]; omega
  have hrlt : hr * msPerHour + mi * msPerMinute < msPerDay := by rw [em, eh, ed]; omega
  have hq : (E * msPerDay + tzMin * msPerMinute).fdiv msPerDay
      = E + (tzMin * msPerMinute).fdiv msPerDay := by
    rw [show E * msPerDay + tzMin * msPerMinute
        = tzMin * msPerMinute + msPerDay * E by ring]
    rw [Int.fdiv_eq_ediv _ (by decide : (0 : Int) ≤ msPerDay),
      Int.fdiv_eq_ediv _ (by decide : (0 : Int) ≤ msPerDay),
      Int.add_mul_ediv_left _ E (by decide : msPerDay ≠ 0)]
    ring
  have hz : (tzMin * msPerMinute).fdiv msPerDay = if 0 ≤ tzMin then 0 else -1 := by
    split_ifs with htz
    · exact fdiv_msPerDay_small_nonneg _ (by rw [em]; omega) (by rw [em, ed]; omega)
    · exact fdiv_msPerDay_small_neg _ (by rw [em, ed]; omega) (by rw [em]; omega)
  have hkey : localEpochDay tzMin (atLocalTime tzMin (E * msPerDay) hr mi)
      = (E * msPerDay + tzMin * msPerMinute).fdiv msPerDay := by
    unfold localEpochDay atLocalTime
    rw [show msPerDay * ((E * msPerDay + tzMin * msPerMinute).fdiv msPerDay)
          + hr * msPerHour + mi * msPerMinute - tzMin * msPerMinute
          + tzMin * msPerMinute
        = msPerDay * ((E * msPerDay + tzMin * msPerMinute).fdiv msPerDay)
          + (hr * msPerHour + mi * msPerMinute) by ring]
    exact fdiv_msPerDay_mul_add _ _ hr0 hrlt
  constructor
  · rw [hkey, hq, hz]
    split_ifs <;> ring
  · unfold localMsOfDay
    rw [hkey]
    unfold atLocalTime
    ring

/-- C2 (amended): each planned reminder's fire instant carries the
configured local wall-clock `hour:minute`; its **local** calendar day is
`addCalendarDays(expiry, -d)` exactly for device timezones at or east of
UTC, and one day earlier (`addCalendarDays(expiry, -d-1)`) for timezones
strictly west of UTC.  In particular, for offsets `[14, 7, 3, 0]` with
`hour = 9`, `minute = 0` and expiry `2026-01-31`, the planned instants lie
on local days `2026-01-17`, `2026-01-24`, `2026-01-28` and `2026-01-31` at
`09:00` in every timezone with non-negative UTC offset. -/
theorem planned_fire_day_and_time (tzMin hr mi E d : Int)
    (htz1 : -1440 < tzMin) (htz2 : tzMin < 1440)
    (hh0 : 0 ≤ hr) (hh : hr < 24) (hm0 : 0 ≤ mi) (hm : mi < 60) :
    (0 ≤ tzMin →
      localEpochDay tzMin (atLocalTime tzMin ((E - d) * msPerDay) hr mi)
        = E - d) ∧
    (tzMin < 0 →
      localEpochDay tzMin (atLocalTime tzMin ((E - d) * msPerDay) hr mi)
        = E - d - 1) ∧
    localMsOfDay tzMin (atLocalTime tzMin ((E - d) * msPerDay) hr mi)
      = hr * msPerHour + mi * msPerMinute ∧
    daysFromCivil ⟨2026, 1, 1⟩ + 30 = daysFromCivil ⟨2026, 1, 31⟩ ∧
    (0 ≤ tzMin → ∀ dd ∈ ([14, 7, 3, 0] : List Int),
      localEpochDay tzMin
          (atLocalTime tzMin ((daysFromCivil ⟨2026, 1, 31⟩ - dd) * msPerDay) 9 0)
        = daysFromCivil ⟨2026, 1, 31⟩ - dd) ∧
    daysFromCivil ⟨2026, 1, 31⟩ - 14 = daysFromCivil ⟨2026, 1, 17⟩ ∧
    daysFromCivil ⟨2026, 1, 31⟩ - 7 = daysFromCivil ⟨2026, 1, 24⟩ ∧
    daysFromCivil ⟨2026, 1, 31⟩ - 3 = daysFromCivil ⟨2026, 1, 28⟩ := by
  obtain ⟨h1, h2⟩ := atLocalTime_day_time tzMin (E - d) hr mi htz1 htz2 hh0 hh hm0 hm
  refine ⟨fun htz => ?_, fun htz => ?_, h2, by decide, fun htz dd _ => ?_,
    by decide, by decide, by decide⟩
  · rw [h1, if_pos htz]
  · rw [h1, if_neg (by omega)]
  · obtain ⟨g1, _⟩ := atLocalTime_day_time tzMin (daysFromCivil ⟨2026, 1, 31⟩ - dd)
      9 0 htz1 htz2 (by decide) (by decide) (by decide) (by decide)
    rw [g1, if_pos htz]

/-- Counterexample for C2 as stated: at UTC offset −300 minutes (e.g.
America/New_York in winter), the instant planned for offset 14 before
expiry `2026-01-31` falls on local calendar day `2026-01-16`, not on
`addCalendarDays(expiry, -14) = 2026-01-17`. -/
theorem planned_fire_day_counterexample :
    localEpochDay (-300)
        (atLocalTime (-300) ((daysFromCivil ⟨2026, 1, 31⟩ - 14) * msPerDay) 9 0)
      = daysFromCivil ⟨2026, 1, 16⟩ ∧
    daysFromCivil ⟨2026, 1, 16⟩ ≠ daysFromCivil ⟨2026, 1, 17⟩ ∧
    daysFromCivil ⟨2026, 1, 31⟩ - 14 = daysFromCivil ⟨2026, 1, 17⟩ := by
  refine ⟨by decide, by decide, by decide⟩

/-- Witness for C2 (amended), at timezone offset −300 and the scenario's
offset 14 before expiry 2026-01-31 (epoch day 20484). -/
theorem planned_fire_day_and_time_witness :
    localEpochDay (-300) (atLocalTime (-300) ((20484 - 14) * msPerDay) 9 0)
      = 20484 - 14 - 1 ∧
    localMsOfDay (-300) (atLocalTime (-300) ((20484 - 14) * msPerDay) 9 0)
      = 9 * msPerHour + 0 * msPerMinute :=
  ⟨(planned_fire_day_and_time (-300) 9 0 20484 14 (by decide) (by decide)
      (by decide) (by decide) (by decide) (by decide)).2.1 (by decide),
   (planned_fire_day_and_time (-300) 9 0 20484 14 (by decide) (by decide)
      (by decide) (by decide) (by decide) (by decide)).2.2.1⟩

/-- C3: on a device, deleting a record issues exactly one cancellation
request per live handle (in order) and removes the record from persisted
storage; the removal is the same for every combination of reported
cancellation outcomes, in particular when every cancellation reports
failure. -/
theorem delete_cancels_and_removes (cancelOk cancelOk' : Str → Bool)
    (store : List Visa) (item : Visa) :
    ((onDelete false cancelOk store item).cancelCalls.map Prod.fst
      = item.notificationIds) ∧
    ((onDelete false cancelOk store item).cancelCalls.length
      = item.notificationIds.length) ∧
    ((onDelete false cancelOk store item).store = deleteVisa store item.id) ∧
    ((onDelete false cancelOk store item).store
      = (onDelete false cancelOk' store item).store) := by
  unfold onDelete cancelScheduled
  refine ⟨?_, ?_, rfl, rfl⟩ <;> split_ifs with h <;>
    simp_all [List.map_map, Function.comp_def]

/-- C1: the claim is the intended behaviour (the settings screen documents
the flag as "Turn local reminders on/off for visa expiry"), but `onSave`
never consults `settings.enabled`: with the persisted flag stored as `"0"`
(so the loaded settings have `enabled = false`), a mobile create with
permission granted still issues one schedule request per configured offset
and saves the record with all four returned handles. -/
theorem enabled_flag_ignored_on_create :
    (getReminderSettings ⟨some ['0'], none, none, none⟩).enabled = false ∧
    (onSave false true (getReminderSettings ⟨some ['0'], none, none, none⟩) 0 0
        (fun _ => some ['n']) ['V', 'N'] ['T'] (some ⟨2026, 1, 1⟩)
        (some 30)).osCalls.length = 4 ∧
    ((onSave false true (getReminderSettings ⟨some ['0'], none, none, none⟩) 0 0
        (fun _ => some ['n']) ['V', 'N'] ['T'] (some ⟨2026, 1, 1⟩)
        (some 30)).saved.map Visa.notificationIds)
      = some [['n'], ['n'], ['n'], ['n']] := by
  refine ⟨by decide, by decide, by decide⟩

/-! ## The save flow on validated input -/

theorem onSave_valid (isWeb permission : Bool) (settings : ReminderSettings)
    (tzMin now : Int) (os : Nat → Option Str) (ccIn labelIn : Str)
    (entry : Ymd) (days : Int)
    (hcc : (jsToUpper (jsTrim ccIn)).length = 2)
    (hlabel : jsTrim labelIn ≠ [])
    (hdate : isValidDateYMD entry = true)
    (hd1 : 1 ≤ days) (hd2 : days ≤ 365) :
    onSave isWeb permission settings tzMin now os ccIn labelIn (some entry)
        (some days)
      = if isWeb then
          ⟨none, [], some ⟨now, jsToUpper (jsTrim ccIn), jsTrim labelIn, entry,
            days, now, []⟩⟩
        else if ¬ permission then
          ⟨none, [], some ⟨now, jsToUpper (jsTrim ccIn), jsTrim labelIn, entry,
            days, now, []⟩⟩
        else
          ⟨none,
           (scheduleLoop isWeb now os settings.hour settings.minute tzMin
             (jsToUpper (jsTrim ccIn)) (addDays entry days)
             settings.offsetsDays 0).2,
           some ⟨now, jsToUpper (jsTrim ccIn), jsTrim labelIn, entry, days, now,
             (scheduleLoop isWeb now os settings.hour settings.minute tzMin
               (jsToUpper (jsTrim ccIn)) (addDays entry days)
               settings.offsetsDays 0).1⟩⟩ := by
  unfold onSave
  rw [if_neg (by simp [hcc]), if_neg hlabel]
  dsimp only
  rw [if_neg (by simp [hdate]), if_neg (by omega)]

/-- C4: whenever validation succeeds, the record is handed to persistence
and no error is raised, for every platform, permission outcome, clock,
timezone and collaborator answer to each schedule request — in particular
when permission is denied or when every schedule request is refused. -/
theorem create_persists_despite_scheduling (isWeb permission : Bool)
    (settings : ReminderSettings) (tzMin now : Int) (os : Nat → Option Str)
    (ccIn labelIn : Str) (entry : Ymd) (days : Int)
    (hcc : (jsToUpper (jsTrim ccIn)).length = 2)
    (hlabel : jsTrim labelIn ≠ [])
    (hdate : isValidDateYMD entry = true)
    (hd1 : 1 ≤ days) (hd2 : days ≤ 365) :
    (onSave isWeb permission settings tzMin now os ccIn labelIn (some entry)
      (some days)).alert = none ∧
    ((onSave isWeb permission settings tzMin now os ccIn labelIn (some entry)
      (some days)).saved).isSome = true := by
  rw [onSave_valid isWeb permission settings tzMin now os ccIn labelIn entry days
    hcc hlabel hdate hd1 hd2]
  split_ifs <;> exact ⟨rfl, rfl⟩

/-- Witness for C4: permission denied and every schedule request refused;
the record is still saved and no alert is shown. -/
theorem create_persists_despite_scheduling_witness :
    (onSave false false ⟨true, 9, 0, [14, 7, 3, 0]⟩ 0 0 (fun _ => none)
      ['V', 'N'] ['T'] (some ⟨2026, 1, 1⟩) (some 30)).alert = none ∧
    ((onSave false false ⟨true, 9, 0, [14, 7, 3, 0]⟩ 0 0 (fun _ => none)
      ['V', 'N'] ['T'] (some ⟨2026, 1, 1⟩) (some 30)).saved).isSome = true :=
  create_persists_despite_scheduling false false ⟨true, 9, 0, [14, 7, 3, 0]⟩ 0 0
    (fun _ => none) ['V', 'N'] ['T'] ⟨2026, 1, 1⟩ 30 (by decide) (by decide)
    (by decide) (by decide) (by decide)

/-- C6 (amended): every record handed to persistence by the add flow
carries the trimmed, uppercased country-code input, which is exactly 2
characters long; any input whose normalized form is not exactly 2
characters is rejected with a validation alert before any side effect
(no schedule request, nothing saved).  The check is on length only, so a
2-character non-letter input passes. -/
theorem countryCode_normalized_two_chars (isWeb permission : Bool)
    (settings : ReminderSettings) (tzMin now : Int) (os : Nat → Option Str)
    (ccIn labelIn : Str) (dateIn : Option Ymd) (durIn : Option Int) :
    (∀ v, (onSave isWeb permission settings tzMin now os ccIn labelIn dateIn
        durIn).saved = some v →
      v.countryCode = jsToUpper (jsTrim ccIn) ∧ v.countryCode.length = 2) ∧
    ((jsToUpper (jsTrim ccIn)).length ≠ 2 →
      onSave isWeb permission settings tzMin now os ccIn labelIn dateIn durIn
        = ⟨some .invalidCountryCode, [], none⟩) := by
  constructor
  · intro v hv
    cases dateIn <;> cases durIn <;>
      (unfold onSave at hv; dsimp only at hv; split_ifs at hv <;>
        (try (cases hv)) <;> simp_all)
  · intro h
    unfold onSave
    rw [if_pos h]

/-- Counterexample for C6 as stated: the country-code input `"12"`
normalizes to `"12"`, which is not two uppercase letters, yet the add flow
accepts it and persists a record whose `countryCode` is `"12"`. -/
theorem countryCode_nonletters_accepted :
    (onSave true true ⟨true, 9, 0, [14, 7, 3, 0]⟩ 0 0 (fun _ => none)
      ['1', '2'] ['T'] (some ⟨2026, 1, 1⟩) (some 30)).alert = none ∧
    ((onSave true true ⟨true, 9, 0, [14, 7, 3, 0]⟩ 0 0 (fun _ => none)
      ['1', '2'] ['T'] (some ⟨2026, 1, 1⟩) (some 30)).saved.map
        Visa.countryCode) = some ['1', '2'] ∧
    (['1', '2'].all Char.isUpper) = false := by
  refine ⟨by decide, by decide, by decide⟩

/-- Witness for C6 (amended): the lowercase input `"vn"` is saved as the
2-character uppercased code `"VN"`. -/
theorem countryCode_normalized_two_chars_witness :
    (⟨0, ['V', 'N'], ['T'], ⟨2026, 1, 1⟩, 30, 0, []⟩ : Visa).countryCode
        = jsToUpper (jsTrim ['v', 'n']) ∧
    (⟨0, ['V', 'N'], ['T'], ⟨2026, 1, 1⟩, 30, 0, []⟩ : Visa).countryCode.length
      = 2 :=
  (countryCode_normalized_two_chars true true ⟨true, 9, 0, [14, 7, 3, 0]⟩ 0 0
      (fun _ => none) ['v', 'n'] ['T'] (some ⟨2026, 1, 1⟩) (some 30)).1
    ⟨0, ['V', 'N'], ['T'], ⟨2026, 1, 1⟩, 30, 0, []⟩ (by decide)

/-! ## Past-instant filtering -/

theorem scheduleLoop_all_past (isWeb : Bool) (now : Int) (os : Nat → Option Str)
    (hour minute tzMin : Int) (cc : Str) (expiryUTC : Int) (offs : List Int)
    (k : Nat)
    (h : ∀ d ∈ offs,
      atLocalTime tzMin (expiryUTC - d * msPerDay) hour minute ≤ now) :
    scheduleLoop isWeb now os hour minute tzMin cc expiryUTC offs k
      = ([], []) := by
  induction offs generalizing k with
  | nil => rfl
  | cons d rest ih =>
    have hd := h d (List.mem_cons_self d rest)
    have hrest : ∀ x ∈ rest,
        atLocalTime tzMin (expiryUTC - x * msPerDay) hour minute ≤ now :=
      fun x hx => h x (List.mem_cons_of_mem d hx)
    unfold scheduleLoop
    dsimp only
    split_ifs with hw
    · exact ih k hrest
    · exact ih k hrest

/-- C10: a reminder whose fire instant is at or before `now` is silently
dropped by `scheduleVisaReminder` — no OS request, no handle, no error —
and consequently a create performed when `now` is at or after every
computed fire instant issues no schedule request and saves the record with
an empty `notificationIds` list. -/
theorem past_reminders_dropped (isWeb permission : Bool)
    (settings : ReminderSettings) (tzMin now : Int) (os : Nat → Option Str)
    (ccIn labelIn : Str) (entry : Ymd) (days : Int)
    (hcc : (jsToUpper (jsTrim ccIn)).length = 2)
    (hlabel : jsTrim labelIn ≠ [])
    (hdate : isValidDateYMD entry = true)
    (hd1 : 1 ≤ days) (hd2 : days ≤ 365)
    (hpast : ∀ d ∈ settings.offsetsDays,
      atLocalTime tzMin (addDays entry days - d * msPerDay) settings.hour
        settings.minute ≤ now) :
    (∀ (w : Bool) (osr : Option Str) (t : Int), t ≤ now →
      scheduleVisaReminder w now osr t = (none, false)) ∧
    (onSave isWeb permission settings tzMin now os ccIn labelIn (some entry)
      (some days)).osCalls = [] ∧
    (onSave isWeb permission settings tzMin now os ccIn labelIn (some entry)
      (some days)).alert = none ∧
    ((onSave isWeb permission settings tzMin now os ccIn labelIn (some entry)
      (some days)).saved.map Visa.notificationIds) = some [] := by
  have hmain :
      onSave isWeb permission settings tzMin now os ccIn labelIn (some entry)
          (some days)
        = if isWeb then
            ⟨none, [], some ⟨now, jsToUpper (jsTrim ccIn), jsTrim labelIn,
              entry, days, now, []⟩⟩
          else if ¬ permission then
            ⟨none, [], some ⟨now, jsToUpper (jsTrim ccIn), jsTrim labelIn,
              entry, days, now, []⟩⟩
          else
            ⟨none, [], some ⟨now, jsToUpper (jsTrim ccIn), jsTrim labelIn,
              entry, days, now, []⟩⟩ := by
    rw [onSave_valid isWeb permission settings tzMin now os ccIn labelIn entry
      days hcc hlabel hdate hd1 hd2]
    rw [scheduleLoop_all_past isWeb now os settings.hour settings.minute tzMin
      (jsToUpper (jsTrim ccIn)) (addDays entry days) settings.offsetsDays 0
      hpast]
  refine ⟨?_, ?_, ?_, ?_⟩
  · intro w osr t ht
    unfold scheduleVisaReminder
    split_ifs with h1
    · rfl
    · rfl
  · rw [hmain]; split_ifs <;> rfl
  · rw [hmain]; split_ifs <;> rfl
  · rw [hmain]; split_ifs <;> rfl

/-- Witness for C10: creating the scenario record with `now` in 2100, long
after every fire instant, schedules nothing and stores no handles. -/
theorem past_reminders_dropped_witness :
    (onSave false true ⟨true, 9, 0, [14, 7, 3, 0]⟩ 0
      (parseUTCInstant ⟨2100, 1, 1⟩) (fun _ => some ['n']) ['V', 'N'] ['T']
      (some ⟨2026, 1, 1⟩) (some 30)).osCalls = [] ∧
    ((onSave false true ⟨true, 9, 0, [14, 7, 3, 0]⟩ 0
      (parseUTCInstant ⟨2100, 1, 1⟩) (fun _ => some ['n']) ['V', 'N'] ['T']
      (some ⟨2026, 1, 1⟩) (some 30)).saved.map Visa.notificationIds)
      = some [] :=
  ⟨(past_reminders_dropped false true ⟨true, 9, 0, [14, 7, 3, 0]⟩ 0
      (parseUTCInstant ⟨2100, 1, 1⟩) (fun _ => some ['n']) ['V', 'N'] ['T']
      ⟨2026, 1, 1⟩ 30 (by decide) (by decide) (by decide) (by decide)
      (by decide) (by decide)).2.1,
   (past_reminders_dropped false true ⟨true, 9, 0, [14, 7, 3, 0]⟩ 0
      (parseUTCInstant ⟨2100, 1, 1⟩) (fun _ => some ['n']) ['V', 'N'] ['T']
      ⟨2026, 1, 1⟩ 30 (by decide) (by decide) (by decide) (by decide)
      (by decide) (by decide)).2.2.2⟩

/-- C5 (amended): a stored hour or minute whose numeric parse is
non-finite reads back as the default (hour 9, minute 0); a finite
out-of-range value is **clamped** to the nearest bound of 0–23 / 0–59
rather than replaced by the default; a finite in-range value reads back as
its floor. -/
theorem stored_time_sanitization (s : StoredSettings) (q : ℚ) :
    ((getReminderSettings { s with hourNum := some none }).hour = 9) ∧
    ((getReminderSettings { s with minuteNum := some none }).minute = 0) ∧
    (q.floor < 0 →
      (getReminderSettings { s with hourNum := some (some q) }).hour = 0) ∧
    (23 < q.floor →
      (getReminderSettings { s with hourNum := some (some q) }).hour = 23) ∧
    (0 ≤ q.floor → q.floor ≤ 23 →
      (getReminderSettings { s with hourNum := some (some q) }).hour
        = q.floor) ∧
    (q.floor < 0 →
      (getReminderSettings { s with minuteNum := some (some q) }).minute
        = 0) ∧
    (59 < q.floor →
      (getReminderSettings { s with minuteNum := some (some q) }).minute
        = 59) ∧
    (0 ≤ q.floor → q.floor ≤ 59 →
      (getReminderSettings { s with minuteNum := some (some q) }).minute
        = q.floor) := by
  unfold getReminderSettings clampInt
  dsimp only
  refine ⟨rfl, rfl, fun h => ?_, fun h => ?_, fun h1 h2 => ?_, fun h => ?_,
    fun h => ?_, fun h1 h2 => ?_⟩ <;> split_ifs <;> omega

/-- Counterexample for C5 as stated: stored hour 99 and minute 99 are
out of range, yet reading the settings yields hour 23 and minute 59 (the
clamped bounds), not the claimed defaults 9 and 0. -/
theorem stored_time_clamped_not_defaulted :
    (getReminderSettings ⟨none, some (some 99), some (some 99), none⟩).hour
      = 23 ∧
    (getReminderSettings ⟨none, some (some 99), some (some 99), none⟩).hour
      ≠ 9 ∧
    (getReminderSettings ⟨none, some (some 99), some (some 99), none⟩).minute
      = 59 ∧
    (getReminderSettings ⟨none, some (some 99), some (some 99), none⟩).minute
      ≠ 0 := by
  refine ⟨by decide, by decide, by decide, by decide⟩

/-- Witness for C5 (amended): stored hour 99 reads back as the clamped
bound 23. -/
theorem stored_time_sanitization_witness :
    (23 : Int) < (99 : ℚ).floor ∧
    (getReminderSettings ⟨none, some (some 99), none, none⟩).hour = 23 :=
  ⟨by decide,
   (stored_time_sanitization ⟨none, none, none, none⟩ 99).2.2.2.1 (by decide)⟩

end Overstayr

